import Mathlib

/-!
Shallow embedding of `src/luminance-gl/src/gl33/shader/program.rs`: the
OpenGL 3.3 backend for shader program linking, uniform resolution, uniform
type checking and typed uniform updates.

The OpenGL driver is external to this code; its observable behaviour is
modelled as explicit inputs (records of the values the driver reports for
reflection queries) and outputs (the list of driver calls the code issues,
with the exact arguments the driver would see). Machine integers (GLint,
GLuint, GLsizei) are modelled as `Int`/`Nat`: none of the embedded code
performs arithmetic on them, they are only compared and forwarded.
-/

namespace Luminance

-- OpenGL enum constants, numeric values from the `gl` crate headers.
namespace gl

def INT : Nat := 0x1404
def UNSIGNED_INT : Nat := 0x1405
def FLOAT : Nat := 0x1406
def INT_VEC2 : Nat := 0x8B53
def INT_VEC3 : Nat := 0x8B54
def INT_VEC4 : Nat := 0x8B55
def UNSIGNED_INT_VEC2 : Nat := 0x8DC6
def UNSIGNED_INT_VEC3 : Nat := 0x8DC7
def UNSIGNED_INT_VEC4 : Nat := 0x8DC8
def FLOAT_VEC2 : Nat := 0x8B50
def FLOAT_VEC3 : Nat := 0x8B51
def FLOAT_VEC4 : Nat := 0x8B52
def FLOAT_MAT2 : Nat := 0x8B5A
def FLOAT_MAT3 : Nat := 0x8B5B
def FLOAT_MAT4 : Nat := 0x8B5C
def BOOL : Nat := 0x8B56
def BOOL_VEC2 : Nat := 0x8B57
def BOOL_VEC3 : Nat := 0x8B58
def BOOL_VEC4 : Nat := 0x8B59
def TRUE : Nat := 1
def FALSE : Nat := 0

end gl

/-- Embeds the source enum `Type` (`luminance::shader::program::Type`), the
caller-declared semantic type of a uniform. (`Type` is reserved in Lean, hence
the name `Ty`.) -/
inductive Ty
  | Integral
  | Unsigned
  | Floating
  | Boolean
deriving DecidableEq, Repr

/-- Embeds the source enum `Dim` (`luminance::shader::program::Dim`), the
caller-declared dimensionality of a uniform. -/
inductive Dim
  | Dim1
  | Dim2
  | Dim3
  | Dim4
  | Dim22
  | Dim33
  | Dim44
deriving DecidableEq, Repr

/-- Embeds `luminance::shader::program::UniformWarning`. -/
inductive UniformWarning
  | Inactive (name : String)
  | TypeMismatch (descr : String)
deriving DecidableEq, Repr

/-- Embeds `luminance::shader::program::ProgramError` (only the `LinkFailed`
variant is produced by this backend). -/
inductive ProgramError
  | LinkFailed (log : String)
deriving DecidableEq, Repr

/-- The driver-reported reflection metadata a program exposes, per uniform
name: the answer of `gl::GetUniformLocation`, and the size/type written by
`gl::GetUniformIndices` + `gl::GetActiveUniform`. The driver is external, so
its answers are inputs of the embedding. -/
structure GLDriver where
  getUniformLocation : String → Int
  activeUniformSize : String → Int
  activeUniformType : String → Nat

/-- True when the string holds a NUL byte: exactly the condition under which
Rust's `CString::new(name.as_bytes())` returns an error (so that the
`.unwrap()` in `map_uniform` panics). A Lean `Char` of code 0 corresponds to
the single byte 0 in UTF-8 and no other character's encoding contains a 0
byte. -/
def hasNulByte (s : String) : Bool :=
  s.data.any (fun c => c = Char.ofNat 0)

/-- Embeds the free function `uniform_type_match` (program.rs lines 83-123):
after the two reflection queries (modelled by reading `drv`), return early
with `none` for array uniforms (`size != 1`), otherwise compare the declared
(`ty`, `dim`) pair against the driver-reported type enum through the fixed
guard-match table; a guard that fails falls through to the wildcard arm
`none`, exactly as the Rust `match` with guards does. -/
def uniform_type_match (drv : GLDriver) (name : String) (ty : Ty) (dim : Dim) :
    Option String :=
  let size := drv.activeUniformSize name
  let typ := drv.activeUniformType name
  if size ≠ 1 then none
  else
    match ty, dim with
    | Ty.Integral, Dim.Dim1 =>
        if typ ≠ gl.INT then some "requested int doesn\x27t match" else none
    | Ty.Integral, Dim.Dim2 =>
        if typ ≠ gl.INT_VEC2 then some "requested ivec2 doesn\x27t match" else none
    | Ty.Integral, Dim.Dim3 =>
        if typ ≠ gl.INT_VEC3 then some "requested ivec3 doesn\x27t match" else none
    | Ty.Integral, Dim.Dim4 =>
        if typ ≠ gl.INT_VEC4 then some "requested ivec4 doesn\x27t match" else none
    | Ty.Unsigned, Dim.Dim1 =>
        if typ ≠ gl.UNSIGNED_INT then some "requested uint doesn\x27t match" else none
    | Ty.Unsigned, Dim.Dim2 =>
        if typ ≠ gl.UNSIGNED_INT_VEC2 then some "requested uvec2 doesn\x27t match" else none
    | Ty.Unsigned, Dim.Dim3 =>
        if typ ≠ gl.UNSIGNED_INT_VEC3 then some "requested uvec3 doesn\x27t match" else none
    | Ty.Unsigned, Dim.Dim4 =>
        if typ ≠ gl.UNSIGNED_INT_VEC4 then some "requested uvec4 doesn\x27t match" else none
    | Ty.Floating, Dim.Dim1 =>
        if typ ≠ gl.FLOAT then some "requested float doesn\x27t match" else none
    | Ty.Floating, Dim.Dim2 =>
        if typ ≠ gl.FLOAT_VEC2 then some "requested vec2 doesn\x27t match" else none
    | Ty.Floating, Dim.Dim3 =>
        if typ ≠ gl.FLOAT_VEC3 then some "requested vec3 doesn\x27t match" else none
    | Ty.Floating, Dim.Dim4 =>
        if typ ≠ gl.FLOAT_VEC4 then some "requested vec4 doesn\x27t match" else none
    | Ty.Floating, Dim.Dim22 =>
        if typ ≠ gl.FLOAT_MAT2 then some "requested mat2 doesn\x27t match" else none
    | Ty.Floating, Dim.Dim33 =>
        if typ ≠ gl.FLOAT_MAT3 then some "requested mat3 doesn\x27t match" else none
    | Ty.Floating, Dim.Dim44 =>
        if typ ≠ gl.FLOAT_MAT4 then some "requested mat4 doesn\x27t match" else none
    | Ty.Boolean, Dim.Dim1 =>
        if typ ≠ gl.BOOL then some "requested bool doesn\x27t match" else none
    | Ty.Boolean, Dim.Dim2 =>
        if typ ≠ gl.BOOL_VEC2 then some "requested bvec2 doesn\x27t match" else none
    | Ty.Boolean, Dim.Dim3 =>
        if typ ≠ gl.BOOL_VEC3 then some "requested bvec3 doesn\x27t match" else none
    | Ty.Boolean, Dim.Dim4 =>
        if typ ≠ gl.BOOL_VEC4 then some "requested bvec4 doesn\x27t match" else none
    | _, _ => none

/-- Embeds `HasProgram::map_uniform` (program.rs lines 60-73). The
`CString::new(name.as_bytes()).unwrap()` panics when the name holds a NUL
byte; a panic is modelled as `none` (no handle/warning pair is returned).
Otherwise: location `-1` yields the `Inactive` warning immediately, else the
type matcher decides between a `TypeMismatch` warning and no warning. -/
def map_uniform (drv : GLDriver) (name : String) (ty : Ty) (dim : Dim) :
    Option (Int × Option UniformWarning) :=
  if hasNulByte name then none
  else
    let location := drv.getUniformLocation name
    if location = -1 then some (-1, some (UniformWarning.Inactive name))
    else
      match uniform_type_match drv name ty dim with
      | some err => some (location, some (UniformWarning.TypeMismatch err))
      | none => some (location, none)

/-- The fixed mapping table, written from the SPEC's words (§4.2): for each
declared (SemanticType, Dimension) pair the table lists, the expected driver
type enum together with the GLSL-style type token the mismatch description
names. The nine pairs outside the table (Integral/Unsigned/Boolean with a
matrix dimension) map to `none`. Compared against the source-derived
`uniform_type_match`. -/
def expectedGL : Ty → Dim → Option (Nat × String)
  | Ty.Integral, Dim.Dim1 => some (gl.INT, "int")
  | Ty.Integral, Dim.Dim2 => some (gl.INT_VEC2, "ivec2")
  | Ty.Integral, Dim.Dim3 => some (gl.INT_VEC3, "ivec3")
  | Ty.Integral, Dim.Dim4 => some (gl.INT_VEC4, "ivec4")
  | Ty.Unsigned, Dim.Dim1 => some (gl.UNSIGNED_INT, "uint")
  | Ty.Unsigned, Dim.Dim2 => some (gl.UNSIGNED_INT_VEC2, "uvec2")
  | Ty.Unsigned, Dim.Dim3 => some (gl.UNSIGNED_INT_VEC3, "uvec3")
  | Ty.Unsigned, Dim.Dim4 => some (gl.UNSIGNED_INT_VEC4, "uvec4")
  | Ty.Floating, Dim.Dim1 => some (gl.FLOAT, "float")
  | Ty.Floating, Dim.Dim2 => some (gl.FLOAT_VEC2, "vec2")
  | Ty.Floating, Dim.Dim3 => some (gl.FLOAT_VEC3, "vec3")
  | Ty.Floating, Dim.Dim4 => some (gl.FLOAT_VEC4, "vec4")
  | Ty.Floating, Dim.Dim22 => some (gl.FLOAT_MAT2, "mat2")
  | Ty.Floating, Dim.Dim33 => some (gl.FLOAT_MAT3, "mat3")
  | Ty.Floating, Dim.Dim44 => some (gl.FLOAT_MAT4, "mat4")
  | Ty.Boolean, Dim.Dim1 => some (gl.BOOL, "bool")
  | Ty.Boolean, Dim.Dim2 => some (gl.BOOL_VEC2, "bvec2")
  | Ty.Boolean, Dim.Dim3 => some (gl.BOOL_VEC3, "bvec3")
  | Ty.Boolean, Dim.Dim4 => some (gl.BOOL_VEC4, "bvec4")
  | _, _ => none

/-- A concrete driver for witnesses: every name is at location 3, size 1,
reported type `INT`. -/
def drvSample : GLDriver where
  getUniformLocation := fun _ => 3
  activeUniformSize := fun _ => 1
  activeUniformType := fun _ => gl.INT

/-- A second concrete driver, agreeing with `drvSample` on the name "mvp"
but differing on every other name. -/
def drvSampleB : GLDriver where
  getUniformLocation := fun s => if s = "mvp" then 3 else 7
  activeUniformSize := fun s => if s = "mvp" then 1 else 4
  activeUniformType := fun s => if s = "mvp" then gl.INT else gl.FLOAT

/-- A concrete driver reporting an array uniform (size 2) for every name. -/
def drvArray : GLDriver where
  getUniformLocation := fun _ => 0
  activeUniformSize := fun _ => 2
  activeUniformType := fun _ => gl.FLOAT

/-! ### Uniform update dispatch -/

/-- An `f32` value as this code handles it: an opaque bit pattern that is
only ever forwarded to the driver, never computed with. -/
structure F32 where
  bits : Nat
deriving DecidableEq, Repr

/-- Embeds `luminance::linear::M22 = [[f32; 2]; 2]`. -/
abbrev M22 := (F32 × F32) × (F32 × F32)

/-- Embeds `luminance::linear::M33 = [[f32; 3]; 3]`. -/
abbrev M33 := (F32 × F32 × F32) × (F32 × F32 × F32) × (F32 × F32 × F32)

/-- Embeds `luminance::linear::M44 = [[f32; 4]; 4]`. -/
abbrev M44 := (F32 × F32 × F32 × F32) × (F32 × F32 × F32 × F32) ×
  (F32 × F32 × F32 × F32) × (F32 × F32 × F32 × F32)

/-- The flat float sequence a `*const M22 as *const f32` cast exposes. -/
def m22Floats (m : M22) : List F32 :=
  [m.1.1, m.1.2, m.2.1, m.2.2]

/-- The flat float sequence a `*const M33 as *const f32` cast exposes. -/
def m33Floats (m : M33) : List F32 :=
  [m.1.1, m.1.2.1, m.1.2.2, m.2.1.1, m.2.1.2.1, m.2.1.2.2, m.2.2.1, m.2.2.2.1, m.2.2.2.2]

/-- The flat float sequence a `*const M44 as *const f32` cast exposes. -/
def m44Floats (m : M44) : List F32 :=
  [m.1.1, m.1.2.1, m.1.2.2.1, m.1.2.2.2,
   m.2.1.1, m.2.1.2.1, m.2.1.2.2.1, m.2.1.2.2.2,
   m.2.2.1.1, m.2.2.1.2.1, m.2.2.1.2.2.1, m.2.2.1.2.2.2,
   m.2.2.2.1, m.2.2.2.2.1, m.2.2.2.2.2.1, m.2.2.2.2.2.2]

/-- A driver uniform-set call as the driver observes it: call name, location,
element count, data actually pointed at (and the transpose flag for matrix
calls). -/
inductive GLCall
  | Uniform1i (location : Int) (x : Int)
  | Uniform1iv (location : Int) (count : Nat) (data : List Int)
  | Uniform2iv (location : Int) (count : Nat) (data : List Int)
  | Uniform3iv (location : Int) (count : Nat) (data : List Int)
  | Uniform4iv (location : Int) (count : Nat) (data : List Int)
  | UniformMatrix2fv (location : Int) (count : Nat) (transpose : Nat) (data : List F32)
  | UniformMatrix3fv (location : Int) (count : Nat) (transpose : Nat) (data : List F32)
  | UniformMatrix4fv (location : Int) (count : Nat) (transpose : Nat) (data : List F32)
deriving DecidableEq, Repr

/-- Rust's `x as i32` on a `bool`. -/
def boolAsI32 (x : Bool) : Int :=
  if x then 1 else 0

/-- Embeds `HasUniform::update1_bool`: `gl::Uniform1i(*u, x as GLint)`. -/
def update1_bool (u : Int) (x : Bool) : GLCall :=
  GLCall.Uniform1i u (boolAsI32 x)

/-- Embeds `HasUniform::update2_bool`: converts the pair element-wise with
`as i32`, then `gl::Uniform2iv(*u, 1, &v)`. -/
def update2_bool (u : Int) (v : Bool × Bool) : GLCall :=
  GLCall.Uniform2iv u 1 [boolAsI32 v.1, boolAsI32 v.2]

/-- Embeds `HasUniform::update3_bool`. -/
def update3_bool (u : Int) (v : Bool × Bool × Bool) : GLCall :=
  GLCall.Uniform3iv u 1 [boolAsI32 v.1, boolAsI32 v.2.1, boolAsI32 v.2.2]

/-- Embeds `HasUniform::update4_bool`. -/
def update4_bool (u : Int) (v : Bool × Bool × Bool × Bool) : GLCall :=
  GLCall.Uniform4iv u 1 [boolAsI32 v.1, boolAsI32 v.2.1, boolAsI32 v.2.2.1, boolAsI32 v.2.2.2]

/-- Embeds `HasUniform::update1_slice_bool`: collects the freshly allocated
conversion buffer `v.iter().map(|x| *x as i32)`, then
`gl::Uniform1iv(*u, v.len(), v.as_ptr())` on that buffer. -/
def update1_slice_bool (u : Int) (v : List Bool) : GLCall :=
  let w := v.map boolAsI32
  GLCall.Uniform1iv u w.length w

/-- Embeds `HasUniform::update2_slice_bool`: the conversion buffer is a
vector of 2-element arrays, passed as a flat `*const i32` with the vector
length as element count. -/
def update2_slice_bool (u : Int) (v : List (Bool × Bool)) : GLCall :=
  let w := v.map (fun x => [boolAsI32 x.1, boolAsI32 x.2])
  GLCall.Uniform2iv u w.length w.flatten

/-- Embeds `HasUniform::update3_slice_bool`. -/
def update3_slice_bool (u : Int) (v : List (Bool × Bool × Bool)) : GLCall :=
  let w := v.map (fun x => [boolAsI32 x.1, boolAsI32 x.2.1, boolAsI32 x.2.2])
  GLCall.Uniform3iv u w.length w.flatten

/-- Embeds `HasUniform::update4_slice_bool`. -/
def update4_slice_bool (u : Int) (v : List (Bool × Bool × Bool × Bool)) : GLCall :=
  let w := v.map (fun x =>
    [boolAsI32 x.1, boolAsI32 x.2.1, boolAsI32 x.2.2.1, boolAsI32 x.2.2.2])
  GLCall.Uniform4iv u w.length w.flatten

/-- Embeds `HasUniform::update22_slice_f32`:
`gl::UniformMatrix2fv(*u, v.len(), gl::FALSE, v.as_ptr() as *const f32)`. -/
def update22_slice_f32 (u : Int) (v : List M22) : GLCall :=
  GLCall.UniformMatrix2fv u v.length gl.FALSE (v.map m22Floats).flatten

/-- Embeds `HasUniform::update33_slice_f32`. -/
def update33_slice_f32 (u : Int) (v : List M33) : GLCall :=
  GLCall.UniformMatrix3fv u v.length gl.FALSE (v.map m33Floats).flatten

/-- Embeds `HasUniform::update44_slice_f32`. -/
def update44_slice_f32 (u : Int) (v : List M44) : GLCall :=
  GLCall.UniformMatrix4fv u v.length gl.FALSE (v.map m44Floats).flatten

/-- Embeds `HasUniform::update22_f32`: delegates to the slice path on the
one-element slice `&[m]`. -/
def update22_f32 (u : Int) (m : M22) : GLCall :=
  update22_slice_f32 u [m]

/-- Embeds `HasUniform::update33_f32`. -/
def update33_f32 (u : Int) (m : M33) : GLCall :=
  update33_slice_f32 u [m]

/-- Embeds `HasUniform::update44_f32`. -/
def update44_f32 (u : Int) (m : M44) : GLCall :=
  update44_slice_f32 u [m]

/-! ### Program linker -/

/-- A driver program-object call as the driver observes it during
`new_program`. -/
inductive ProgCall
  | CreateProgram
  | AttachShader (program : Nat) (shader : Nat)
  | LinkProgram (program : Nat)
  | GetLinkStatus (program : Nat)
  | GetInfoLogLength (program : Nat)
  | GetProgramInfoLog (program : Nat) (maxLen : Int)
  | DeleteProgram (program : Nat)
deriving DecidableEq, Repr

/-- The driver's observable behaviour during one `new_program` run: the
handle `gl::CreateProgram` returns, the `GLint` written for `LINK_STATUS`,
the `GLint` written for `INFO_LOG_LENGTH`, and the info-log text
`gl::GetProgramInfoLog` fills in (the `String::from_utf8` decode of the
driver's bytes is modelled as already-decoded text; no claim concerns
invalid UTF-8). -/
structure LinkDriver where
  created : Nat
  linkStatus : Int
  infoLogLen : Int
  infoLog : String

/-- Embeds `HasProgram::new_program` (program.rs lines 16-54), returning the
ordered list of driver calls issued and the result. Attach order: the
tessellation control/evaluation pair when present, the vertex stage, the
geometry stage when present, the fragment stage; then link and a
`LINK_STATUS` query. On status `TRUE` the program handle is returned; on any
other status the info log is length-queried, read, the program object is
deleted, and `LinkFailed` carries the log. -/
def new_program (drv : LinkDriver) (tess : Option (Nat × Nat)) (vertex : Nat)
    (geometry : Option Nat) (fragment : Nat) :
    List ProgCall × Except ProgramError Nat :=
  let program := drv.created
  let pre : List ProgCall :=
    [ProgCall.CreateProgram] ++
    (match tess with
     | some (tcs, tes) =>
        [ProgCall.AttachShader program tcs, ProgCall.AttachShader program tes]
     | none => []) ++
    [ProgCall.AttachShader program vertex] ++
    (match geometry with
     | some g => [ProgCall.AttachShader program g]
     | none => []) ++
    [ProgCall.AttachShader program fragment,
     ProgCall.LinkProgram program,
     ProgCall.GetLinkStatus program]
  if drv.linkStatus = ((gl.TRUE : Nat) : Int) then
    (pre, Except.ok program)
  else
    (pre ++
      [ProgCall.GetInfoLogLength program,
       ProgCall.GetProgramInfoLog program drv.infoLogLen,
       ProgCall.DeleteProgram program],
     Except.error (ProgramError.LinkFailed drv.infoLog))

/-- A concrete failing link driver for witnesses. -/
def linkDrvFail : LinkDriver where
  created := 5
  linkStatus := 0
  infoLogLen := 4
  infoLog := "boom"

/-- A concrete succeeding link driver for witnesses. -/
def linkDrvOk : LinkDriver where
  created := 5
  linkStatus := 1
  infoLogLen := 0
  infoLog := ""

/-! ### Update bracket -/

/-- An event observable at the driver during the `update_uniforms` bracket:
a `gl::UseProgram` call, or an opaque driver call issued by the caller's
update callback. -/
inductive UpdateCall
  | UseProgram (program : Nat)
  | CallbackOp (k : Nat)
deriving DecidableEq, Repr

/-- Embeds `HasProgram::update_uniforms` (program.rs lines 75-79), which is
the straight-line sequence `gl::UseProgram(*program); f(); gl::UseProgram(0)`
with no drop guard or unwind protection. The callback `f` is modelled by the
driver calls it issues (`fCalls`) and whether it returns normally
(`fCompletes = true`) or panics partway (`fCompletes = false`); a panic
unwinds out of `update_uniforms`, so the trailing `gl::UseProgram(0)` is
reached only when the callback completes. Returns the driver-visible call
trace and whether the bracket itself completed. -/
def update_uniforms (program : Nat) (fCalls : List UpdateCall) (fCompletes : Bool) :
    List UpdateCall × Bool :=
  (UpdateCall.UseProgram program ::
    (fCalls ++ if fCompletes then [UpdateCall.UseProgram 0] else []),
   fCompletes)

/-! ### Theorems -/

/-- C1: for every (SemanticType, Dimension) pair of the fixed mapping table
and every driver-reported non-array uniform (size = 1), `uniform_type_match`
returns `none` exactly when the driver-reported type enum equals the table's
expected enum for the pair, and otherwise returns a description naming the
expected GLSL-style type token. -/
theorem C1_type_matcher_follows_table (drv : GLDriver) (name : String)
    (ty : Ty) (dim : Dim) (e : Nat) (tok : String)
    (hsize : drv.activeUniformSize name = 1)
    (htab : expectedGL ty dim = some (e, tok)) :
    (uniform_type_match drv name ty dim = none ↔ drv.activeUniformType name = e) ∧
    (drv.activeUniformType name ≠ e →
      uniform_type_match drv name ty dim =
        some ("requested " ++ tok ++ " doesn\x27t match")) := by
  by_cases h : drv.activeUniformType name = e <;>
    cases ty <;> cases dim <;>
    simp only [expectedGL, Option.some.injEq, Prod.mk.injEq, reduceCtorEq] at htab <;>
    obtain ⟨rfl, rfl⟩ := htab <;>
    simp [uniform_type_match, hsize, h]

/-- C1 witness: the theorem instantiated at `drvSample` (size 1, reported
type `INT`), declared `Integral`/`Dim1`. -/
theorem C1_type_matcher_follows_table_witness :
    (uniform_type_match drvSample "mvp" Ty.Integral Dim.Dim1 = none ↔
      drvSample.activeUniformType "mvp" = gl.INT) ∧
    (drvSample.activeUniformType "mvp" ≠ gl.INT →
      uniform_type_match drvSample "mvp" Ty.Integral Dim.Dim1 =
        some ("requested " ++ "int" ++ " doesn\x27t match")) :=
  C1_type_matcher_follows_table drvSample "mvp" Ty.Integral Dim.Dim1 gl.INT "int"
    (by decide) (by decide)

/-- C2: whenever the driver reports an active uniform size other than 1 (an
array uniform), `uniform_type_match` returns `none`, for every declared
(SemanticType, Dimension) and regardless of the driver-reported type enum. -/
theorem C2_array_uniforms_bypass_check (drv : GLDriver) (name : String)
    (ty : Ty) (dim : Dim) (hsize : drv.activeUniformSize name ≠ 1) :
    uniform_type_match drv name ty dim = none := by
  simp [uniform_type_match, hsize]

/-- C2 witness: the theorem instantiated at `drvArray`, which reports every
uniform as an array of size 2 of floats, declared `Integral`/`Dim1`. -/
theorem C2_array_uniforms_bypass_check_witness :
    uniform_type_match drvArray "xs" Ty.Integral Dim.Dim1 = none :=
  C2_array_uniforms_bypass_check drvArray "xs" Ty.Integral Dim.Dim1 (by decide)

/-- C9: for every declared pair outside the fixed mapping table — a
non-floating SemanticType combined with a matrix dimension — the comparison
falls through the wildcard arm, so `uniform_type_match` returns `none`
whatever the driver reports; the matcher only ever produces a mismatch for
the nineteen listed combinations. -/
theorem C9_outside_table_never_mismatch (drv : GLDriver) (name : String)
    (ty : Ty) (dim : Dim) (hty : ty ≠ Ty.Floating)
    (hdim : dim = Dim.Dim22 ∨ dim = Dim.Dim33 ∨ dim = Dim.Dim44) :
    uniform_type_match drv name ty dim = none := by
  rcases hdim with rfl | rfl | rfl <;> cases ty <;>
    simp_all [uniform_type_match]

/-- C9 witness: declared `Integral`/`Dim22` against `drvSample` (size 1,
reported type `INT`, which is not any matrix enum) still yields no
mismatch. -/
theorem C9_outside_table_never_mismatch_witness :
    uniform_type_match drvSample "m" Ty.Integral Dim.Dim22 = none :=
  C9_outside_table_never_mismatch drvSample "m" Ty.Integral Dim.Dim22
    (by decide) (Or.inl rfl)

/-- C3 counterexample: the claim quantifies over every name, but on a name
holding a NUL byte `map_uniform` panics in `CString::new(..).unwrap()`
(modelled as `none`) instead of returning one of the three claimed
handle/warning outcomes — even though the driver (here `drvSample`) would
have reported a valid location. -/
theorem C3_counterexample_nul_name :
    map_uniform drvSample "\x00" Ty.Integral Dim.Dim1 = none := by decide

/-- C3 (amended): for every name whose C-string conversion succeeds (no NUL
byte), `map_uniform` returns exactly one of the three outcomes: the sentinel
location `-1` with an `Inactive` warning when the driver reports no such
active uniform (whatever the type matcher would say), else a `TypeMismatch`
warning holding the matcher's description when the matcher reports one, else
the location with no warning. -/
theorem C3_resolve_trichotomy (drv : GLDriver) (name : String) (ty : Ty)
    (dim : Dim) (hname : hasNulByte name = false) :
    (drv.getUniformLocation name = -1 ∧
      map_uniform drv name ty dim =
        some (-1, some (UniformWarning.Inactive name))) ∨
    (drv.getUniformLocation name ≠ -1 ∧ ∃ descr,
      uniform_type_match drv name ty dim = some descr ∧
      map_uniform drv name ty dim =
        some (drv.getUniformLocation name,
          some (UniformWarning.TypeMismatch descr))) ∨
    (drv.getUniformLocation name ≠ -1 ∧
      uniform_type_match drv name ty dim = none ∧
      map_uniform drv name ty dim =
        some (drv.getUniformLocation name, none)) := by
  by_cases hloc : drv.getUniformLocation name = -1
  · exact Or.inl ⟨hloc, by simp [map_uniform, hname, hloc]⟩
  · cases hmatch : uniform_type_match drv name ty dim with
    | some d =>
        exact Or.inr (Or.inl ⟨hloc, d, rfl,
          by simp [map_uniform, hname, hloc, hmatch]⟩)
    | none =>
        exact Or.inr (Or.inr ⟨hloc, rfl,
          by simp [map_uniform, hname, hloc, hmatch]⟩)

/-- C3 witness: the amended theorem instantiated at `drvSample` and the
NUL-free name "mvp". -/
theorem C3_resolve_trichotomy_witness :
    (drvSample.getUniformLocation "mvp" = -1 ∧
      map_uniform drvSample "mvp" Ty.Integral Dim.Dim1 =
        some (-1, some (UniformWarning.Inactive "mvp"))) ∨
    (drvSample.getUniformLocation "mvp" ≠ -1 ∧ ∃ descr,
      uniform_type_match drvSample "mvp" Ty.Integral Dim.Dim1 = some descr ∧
      map_uniform drvSample "mvp" Ty.Integral Dim.Dim1 =
        some (drvSample.getUniformLocation "mvp",
          some (UniformWarning.TypeMismatch descr))) ∨
    (drvSample.getUniformLocation "mvp" ≠ -1 ∧
      uniform_type_match drvSample "mvp" Ty.Integral Dim.Dim1 = none ∧
      map_uniform drvSample "mvp" Ty.Integral Dim.Dim1 =
        some (drvSample.getUniformLocation "mvp", none)) :=
  C3_resolve_trichotomy drvSample "mvp" Ty.Integral Dim.Dim1 (by decide)

/-- C8: resolution is deterministic in its inputs and the driver's reported
metadata — two drivers whose reflection answers agree at a name produce the
same handle and the same warning for that name, so resolving twice on an
unchanged program gives identical results. -/
theorem C8_resolution_deterministic (drvA drvB : GLDriver) (name : String)
    (ty : Ty) (dim : Dim)
    (hloc : drvA.getUniformLocation name = drvB.getUniformLocation name)
    (hsize : drvA.activeUniformSize name = drvB.activeUniformSize name)
    (htyp : drvA.activeUniformType name = drvB.activeUniformType name) :
    map_uniform drvA name ty dim = map_uniform drvB name ty dim := by
  simp only [map_uniform, uniform_type_match, hloc, hsize, htyp]

/-- C8 witness: `drvSample` and `drvSampleB` differ on other names but agree
on "mvp", so resolution of "mvp" coincides. -/
theorem C8_resolution_deterministic_witness :
    map_uniform drvSample "mvp" Ty.Integral Dim.Dim1 =
      map_uniform drvSampleB "mvp" Ty.Integral Dim.Dim1 :=
  C8_resolution_deterministic drvSample drvSampleB "mvp" Ty.Integral Dim.Dim1
    (by decide) (by decide) (by decide)

/-- C10: for every name holding a NUL byte, `map_uniform` aborts (the
C-string conversion panics; modelled as `none`, no handle/warning pair);
for every NUL-free name the conversion succeeds and resolution returns a
handle/warning pair. -/
theorem C10_nul_name_aborts (drv : GLDriver) (name : String) (ty : Ty)
    (dim : Dim) :
    (hasNulByte name = true → map_uniform drv name ty dim = none) ∧
    (hasNulByte name = false →
      ∃ loc w, map_uniform drv name ty dim = some (loc, w)) := by
  constructor
  · intro h
    simp [map_uniform, h]
  · intro h
    by_cases hloc : drv.getUniformLocation name = -1
    · exact ⟨-1, some (UniformWarning.Inactive name),
        by simp [map_uniform, h, hloc]⟩
    · cases hmatch : uniform_type_match drv name ty dim with
      | some d =>
          exact ⟨drv.getUniformLocation name,
            some (UniformWarning.TypeMismatch d),
            by simp [map_uniform, h, hloc, hmatch]⟩
      | none =>
          exact ⟨drv.getUniformLocation name, none,
            by simp [map_uniform, h, hloc, hmatch]⟩

/-- C10 witness: a name with an interior NUL byte aborts; the NUL-free name
"mvp" resolves to a pair. -/
theorem C10_nul_name_aborts_witness :
    map_uniform drvSample "a\x00b" Ty.Integral Dim.Dim1 = none ∧
    ∃ loc w, map_uniform drvSample "mvp" Ty.Integral Dim.Dim1 =
      some (loc, w) :=
  ⟨(C10_nul_name_aborts drvSample "a\x00b" Ty.Integral Dim.Dim1).1 (by decide),
   (C10_nul_name_aborts drvSample "mvp" Ty.Integral Dim.Dim1).2 (by decide)⟩

/-- C6: every boolean update operation marshals `true` to the integer 1 and
`false` to 0 before dispatching through the integral driver calls, passing
the element count of the original sequence; in particular the boolean
vector-sequence path hands the driver `[1, 0, 1]` with count 3 for input
`[true, false, true]`. -/
theorem C6_boolean_marshalling :
    (∀ (u : Int) (x : Bool),
      update1_bool u x = GLCall.Uniform1i u (if x then 1 else 0)) ∧
    (∀ (u : Int) (v : Bool × Bool),
      update2_bool u v = GLCall.Uniform2iv u 1
        [if v.1 then 1 else 0, if v.2 then 1 else 0]) ∧
    (∀ (u : Int) (v : Bool × Bool × Bool),
      update3_bool u v = GLCall.Uniform3iv u 1
        [if v.1 then 1 else 0, if v.2.1 then 1 else 0, if v.2.2 then 1 else 0]) ∧
    (∀ (u : Int) (v : Bool × Bool × Bool × Bool),
      update4_bool u v = GLCall.Uniform4iv u 1
        [if v.1 then 1 else 0, if v.2.1 then 1 else 0,
         if v.2.2.1 then 1 else 0, if v.2.2.2 then 1 else 0]) ∧
    (∀ (u : Int) (v : List Bool),
      update1_slice_bool u v = GLCall.Uniform1iv u v.length
        (v.map (fun b => if b then 1 else 0))) ∧
    (∀ (u : Int) (v : List (Bool × Bool)),
      update2_slice_bool u v = GLCall.Uniform2iv u v.length
        ((v.map (fun x => [if x.1 then 1 else 0, if x.2 then 1 else 0])).flatten)) ∧
    (∀ (u : Int) (v : List (Bool × Bool × Bool)),
      update3_slice_bool u v = GLCall.Uniform3iv u v.length
        ((v.map (fun x => [if x.1 then 1 else 0, if x.2.1 then 1 else 0,
          if x.2.2 then 1 else 0])).flatten)) ∧
    (∀ (u : Int) (v : List (Bool × Bool × Bool × Bool)),
      update4_slice_bool u v = GLCall.Uniform4iv u v.length
        ((v.map (fun x => [if x.1 then 1 else 0, if x.2.1 then 1 else 0,
          if x.2.2.1 then 1 else 0, if x.2.2.2 then 1 else 0])).flatten)) ∧
    (∀ u : Int,
      update1_slice_bool u [true, false, true] =
        GLCall.Uniform1iv u 3 [1, 0, 1]) := by
  refine ⟨?_, ?_, ?_, ?_, ?_, ?_, ?_, ?_, ?_⟩ <;> intros <;>
    simp [update1_bool, update2_bool, update3_bool, update4_bool,
      update1_slice_bool, update2_slice_bool, update3_slice_bool,
      update4_slice_bool, boolAsI32]

/-- C7: each single-matrix update equals the corresponding sequence update
on the one-element sequence, and every matrix dispatch passes the driver the
`FALSE` transpose flag with the sequence length as element count. -/
theorem C7_matrix_single_is_singleton_slice :
    (∀ (u : Int) (m : M22), update22_f32 u m = update22_slice_f32 u [m]) ∧
    (∀ (u : Int) (m : M33), update33_f32 u m = update33_slice_f32 u [m]) ∧
    (∀ (u : Int) (m : M44), update44_f32 u m = update44_slice_f32 u [m]) ∧
    (∀ (u : Int) (v : List M22), ∃ data,
      update22_slice_f32 u v =
        GLCall.UniformMatrix2fv u v.length gl.FALSE data) ∧
    (∀ (u : Int) (v : List M33), ∃ data,
      update33_slice_f32 u v =
        GLCall.UniformMatrix3fv u v.length gl.FALSE data) ∧
    (∀ (u : Int) (v : List M44), ∃ data,
      update44_slice_f32 u v =
        GLCall.UniformMatrix4fv u v.length gl.FALSE data) :=
  ⟨fun _ _ => rfl, fun _ _ => rfl, fun _ _ => rfl,
   fun _ _ => ⟨_, rfl⟩, fun _ _ => ⟨_, rfl⟩, fun _ _ => ⟨_, rfl⟩⟩

/-- C5: when the driver reports link status other than `TRUE`, `new_program`
queries the log length, reads the log, deletes the program object as its
last driver call, and returns `LinkFailed` carrying the log — never a
program handle; when the driver reports `TRUE`, the handle is returned and
the driver saw exactly the creation, the attaches in order (tessellation
control/evaluation when present, vertex, geometry when present, fragment),
the link request and the status query. -/
theorem C5_link_failure_cleanup_and_attach_order (drv : LinkDriver)
    (tess : Option (Nat × Nat)) (vertex : Nat) (geometry : Option Nat)
    (fragment : Nat) :
    (drv.linkStatus ≠ ((gl.TRUE : Nat) : Int) →
      (new_program drv tess vertex geometry fragment).2 =
        Except.error (ProgramError.LinkFailed drv.infoLog) ∧
      (∀ p, (new_program drv tess vertex geometry fragment).2 ≠ Except.ok p) ∧
      (new_program drv tess vertex geometry fragment).1 =
        [ProgCall.CreateProgram] ++
        (match tess with
         | some (tcs, tes) =>
            [ProgCall.AttachShader drv.created tcs,
             ProgCall.AttachShader drv.created tes]
         | none => []) ++
        [ProgCall.AttachShader drv.created vertex] ++
        (match geometry with
         | some g => [ProgCall.AttachShader drv.created g]
         | none => []) ++
        [ProgCall.AttachShader drv.created fragment,
         ProgCall.LinkProgram drv.created,
         ProgCall.GetLinkStatus drv.created,
         ProgCall.GetInfoLogLength drv.created,
         ProgCall.GetProgramInfoLog drv.created drv.infoLogLen,
         ProgCall.DeleteProgram drv.created]) ∧
    (drv.linkStatus = ((gl.TRUE : Nat) : Int) →
      (new_program drv tess vertex geometry fragment).2 =
        Except.ok drv.created ∧
      (new_program drv tess vertex geometry fragment).1 =
        [ProgCall.CreateProgram] ++
        (match tess with
         | some (tcs, tes) =>
            [ProgCall.AttachShader drv.created tcs,
             ProgCall.AttachShader drv.created tes]
         | none => []) ++
        [ProgCall.AttachShader drv.created vertex] ++
        (match geometry with
         | some g => [ProgCall.AttachShader drv.created g]
         | none => []) ++
        [ProgCall.AttachShader drv.created fragment,
         ProgCall.LinkProgram drv.created,
         ProgCall.GetLinkStatus drv.created]) := by
  constructor
  · intro h
    refine ⟨?_, ?_, ?_⟩ <;>
      simp [new_program, h]
  · intro h
    constructor <;> simp [new_program, h]

/-- C5 witness: a failing link with full stage set returns `LinkFailed`
carrying the log; a succeeding minimal link returns the handle. -/
theorem C5_link_failure_cleanup_and_attach_order_witness :
    (new_program linkDrvFail (some (10, 11)) 12 (some 13) 14).2 =
      Except.error (ProgramError.LinkFailed "boom") ∧
    (new_program linkDrvOk none 12 none 14).2 = Except.ok 5 :=
  ⟨((C5_link_failure_cleanup_and_attach_order linkDrvFail (some (10, 11)) 12
      (some 13) 14).1 (by decide)).1,
   ((C5_link_failure_cleanup_and_attach_order linkDrvOk none 12 none 14).2
      (by decide)).1⟩

/-- C4: evaluation of the code at the failing input. The claim (and spec §5)
requires the bracket to restore "no program current" even when the callback
fails partway, but `update_uniforms` is a straight-line sequence with no
drop guard: with a callback that panics before returning (here: emitting no
calls), the driver-visible trace is just the initial bind — the trailing
`gl::UseProgram(0)` is never issued. -/
theorem C4_bracket_skips_unbind_on_panic :
    (update_uniforms 1 [] false).1 = [UpdateCall.UseProgram 1] ∧
    UpdateCall.UseProgram 0 ∉ (update_uniforms 1 [] false).1 ∧
    (∀ (program : Nat) (fCalls : List UpdateCall),
      (update_uniforms program fCalls true).1 =
        UpdateCall.UseProgram program :: fCalls ++ [UpdateCall.UseProgram 0]) := by
  refine ⟨by decide, by decide, ?_⟩
  intro program fCalls
  simp [update_uniforms]

end Luminance
